import Mathlib

/-!
Shallow embedding of the chat-route layer of the ai-chatbot-assistant-ui
repository (the Next.js edge route `frontend/chatbot/app/api/chat/route.ts`,
the older route variant of the same handler, and the `SourceDisplay`
component), together with a model, written from the specification, of the
casual-query classifier whose Python source is not part of the repository
snapshot.

JavaScript strings are modelled as Lean `String` (lists of Unicode scalar
values); the JavaScript numbers the claims touch are modelled as `ℚ`;
absent / `undefined` JSON fields are modelled as `Option`, or, for string
fields the route only uses behind truthiness guards, as `""` (absent and
empty are equally falsy there).
-/

namespace ChatRoute

/-- `leadsWith p l` holds when the character list `p` is an initial
segment of `l`; models JavaScript `String.prototype.startsWith`. -/
def leadsWith : List Char → List Char → Bool
  | [], _ => true
  | _ :: _, [] => false
  | a :: as, b :: bs => a = b && leadsWith as bs

/-- `containsSeq n h` holds when the character list `n` occurs
contiguously inside `h`; models JavaScript `String.prototype.includes`. -/
def containsSeq (n : List Char) : List Char → Bool
  | [] => leadsWith n []
  | c :: t => leadsWith n (c :: t) || containsSeq n t

/-- The whitespace characters of JavaScript `\s` and
`String.prototype.trim` (modelled on the ASCII subset). -/
def jsSpace (c : Char) : Bool :=
  c = ' ' || c = '\t' || c = '\n' || c = '\r' || c = '\x0b' || c = '\x0c'

/-- JavaScript `String.prototype.trim`: strip leading and trailing
whitespace. -/
def jsTrim (s : String) : String :=
  String.mk (((s.data.dropWhile jsSpace).reverse.dropWhile jsSpace).reverse)

/-- JavaScript `String.prototype.split(' ')` on the character list: split
at every single space, keeping empty pieces. -/
def splitOnSpace : List Char → List (List Char)
  | [] => [[]]
  | c :: t =>
      let r := splitOnSpace t
      if c = ' ' then [] :: r
      else
        match r with
        | [] => [[c]]
        | w :: rs => (c :: w) :: rs

/-- JavaScript `String.prototype.split(' ')`. -/
def jsSplitSpace (s : String) : List String :=
  (splitOnSpace s.data).map String.mk

/-- Lower-casing of one character, on the ASCII range JavaScript
`toLowerCase` and the modelled pattern tables use. -/
def asciiLowerChar (c : Char) : Char :=
  if 'A' ≤ c ∧ c ≤ 'Z' then Char.ofNat (c.toNat + 32) else c

/-- JavaScript `String.prototype.toLowerCase` (ASCII range). -/
def jsToLower (s : String) : String :=
  String.mk (s.data.map asciiLowerChar)

/-- JavaScript `String.prototype.substring(0, n)`: the first `n`
characters. -/
def jsTake (s : String) (n : Nat) : String :=
  String.mk (s.data.take n)

/-! ## Stream-chunk escaping (claim C9)

The older route's `sendChunk` escapes by five sequential global
single-character `String.prototype.replace` calls; the current route uses
`JSON.stringify(text).slice(1, -1)`. -/

/-- One global single-character `replace` pass: every occurrence of
`target` is replaced by the character sequence `repl`. -/
def replacePass (target : Char) (repl : List Char) (l : List Char) : List Char :=
  l.flatMap (fun c => if c = target then repl else [c])

/-- The older route's manual escaping, in the order the code performs it:
escape backslashes first, then double quotes, newlines, carriage
returns, tabs. -/
def manualEscapeList (l : List Char) : List Char :=
  replacePass '\t' ['\\', 't']
    (replacePass '\r' ['\\', 'r']
      (replacePass '\n' ['\\', 'n']
        (replacePass '"' ['\\', '"']
          (replacePass '\\' ['\\', '\\'] l))))

/-- `sendChunk` escaping of the older route (`part_004`, lines 100–105). -/
def manualEscape (s : String) : String :=
  String.mk (manualEscapeList s.data)

/-- Lower-case hexadecimal digit for `n < 16`. -/
def hexDigitLower (n : Nat) : Char :=
  if n < 10 then Char.ofNat (48 + n) else Char.ofNat (87 + n)

/-- Escaping of one character by ECMAScript `JSON.stringify` when quoting
a string: the two-character escapes for quote, backslash, backspace,
form feed, newline, carriage return and tab, a `\u00xx` escape for the
remaining control characters, and the character itself otherwise. -/
def jsonEscapeChar (c : Char) : List Char :=
  if c = '"' then ['\\', '"']
  else if c = '\\' then ['\\', '\\']
  else if c = '\x08' then ['\\', 'b']
  else if c = '\x0c' then ['\\', 'f']
  else if c = '\n' then ['\\', 'n']
  else if c = '\r' then ['\\', 'r']
  else if c = '\t' then ['\\', 't']
  else if c.toNat < 32 then
    '\\' :: 'u' :: '0' :: '0' :: [hexDigitLower (c.toNat / 16), hexDigitLower (c.toNat % 16)]
  else [c]

/-- `JSON.stringify` applied to a string value: the escaped body wrapped
in double quotes. -/
def jsonStringifyString (s : String) : String :=
  "\"" ++ String.mk (s.data.flatMap jsonEscapeChar) ++ "\""

/-- Models `.slice(1, -1)` on a JavaScript string: drop the first and the
last character. -/
def sliceOneToMinusOne (s : String) : String :=
  String.mk ((s.data.drop 1).dropLast)

/-- `sendChunk` escaping of the current route (`route.ts`, line 118):
`JSON.stringify(text).slice(1, -1)`. -/
def jsonEscape (s : String) : String :=
  sliceOneToMinusOne (jsonStringifyString s)

/-- The per-character form of the older route's five-pass escaping. -/
def manualEscapeChar (c : Char) : List Char :=
  if c = '\\' then ['\\', '\\']
  else if c = '"' then ['\\', '"']
  else if c = '\n' then ['\\', 'n']
  else if c = '\r' then ['\\', 'r']
  else if c = '\t' then ['\\', 't']
  else [c]

/-! ## Backend reply data model and result assembly (route.ts, lines 67–90) -/

/-- One element of `metadata.sources` in a backend reply. -/
structure Source where
  title : String := ""
  document_title : String := ""
  name : String := ""
  filename : String := ""
  excerpt : String := ""
  department : String := ""
  sub_department : String := ""
  download_url : String := ""
deriving DecidableEq

/-- The `follow_up_context` object of a backend reply. -/
structure FollowUpCtx where
  previous_topic : String := ""
  detected_phrases : List String := []
deriving DecidableEq

/-- The `ai_message.metadata` object of a backend reply. -/
structure Metadata where
  sources : Option (List Source) := none
  confidence : Option ℚ := none
  is_follow_up : Option Bool := none
  follow_up_context : Option FollowUpCtx := none
deriving DecidableEq

/-- The `ai_message` object of a backend reply. -/
structure AiMessage where
  content : String := ""
  reasoning : String := ""
  metadata : Option Metadata := none
deriving DecidableEq

/-- The parsed JSON body of a backend reply; `error` is the truthiness of
the `error` field. -/
structure BackendData where
  error : Bool := false
  ai_message : Option AiMessage := none
deriving DecidableEq

/-- The local variables the route assembles from a backend reply before
streaming (`aiResponse`, `reasoning`, `sources`, `confidence`,
`isFollowUp`, `followUpContext`). -/
structure Assembled where
  aiResponse : String := ""
  reasoning : String := ""
  sources : List Source := []
  confidence : ℚ := 0
  isFollowUp : Bool := false
  followUpContext : Option FollowUpCtx := none
deriving DecidableEq

/-- The fixed apology used when an error reply carries no message content
(route.ts, line 74). -/
def assembleApology : String :=
  "I apologize, but I encountered an error processing your request."

/-- The empty object `{}` that `data.ai_message.metadata || {}` falls
back to. -/
def defaultMetadata : Metadata := {}

/-- Assembly of the streaming inputs from a backend reply (route.ts,
lines 70–90).  In the success branch the route reads
`data.ai_message.content` unguarded, so a success reply without an
`ai_message` throws a `TypeError`, modelled as `.error ()`. -/
def assembleE (d : BackendData) : Except Unit Assembled :=
  if d.error then
    .ok { aiResponse :=
            match d.ai_message with
            | none => assembleApology
            | some m => if m.content = "" then assembleApology else m.content
        , reasoning :=
            match d.ai_message with
            | none => ""
            | some m => m.reasoning
        , sources := []
        , confidence := 0
        , isFollowUp := false
        , followUpContext := none }
  else
    match d.ai_message with
    | none => .error ()
    | some m =>
        let md := m.metadata.getD defaultMetadata
        .ok { aiResponse := m.content
            , reasoning := m.reasoning
            , sources := md.sources.getD []
            , confidence :=
                match md.confidence with
                | none => 0
                | some c => if c = 0 then 0 else c
            , isFollowUp := md.is_follow_up.getD false
            , followUpContext := md.follow_up_context }

/-- The confidence value carried by a backend reply's metadata, if any. -/
def metaConfidence (d : BackendData) : Option ℚ :=
  (d.ai_message.bind AiMessage.metadata).bind Metadata.confidence

/-! ## Source display titles (route.ts, lines 278–299) -/

/-- A character of the class `[a-f0-9\-\s]` with the `i` flag: hexadecimal
letters in either case, digits, hyphen, or whitespace. -/
def uuidChar (c : Char) : Bool :=
  ('a' ≤ c && c ≤ 'f') || ('A' ≤ c && c ≤ 'F') || c.isDigit || c = '-' ||
    c = ' ' || c = '\t' || c = '\n' || c = '\r' || c = '\x0b' || c = '\x0c'

/-- The test `filename.match(/^[a-f0-9\-\s]+$/i)`: a non-empty string all
of whose characters are in the class. -/
def uuidLike (f : String) : Bool :=
  !f.data.isEmpty && f.data.all uuidChar

/-- The replacement `filename.replace(/\.[^/.]+$/, '')`: remove a final
dot followed by one or more trailing characters that are neither dot nor
slash. -/
def stripExt (l : List Char) : List Char :=
  let r := l.reverse
  let ext := r.takeWhile (fun c => !(c = '.' || c = '/'))
  match r.drop ext.length, ext with
  | '.' :: t, _ :: _ => t.reverse
  | _, _ => l

/-- The cleaned filename: extension removed, then every `_` or `-`
replaced by a space (route.ts, line 295). -/
def cleanFilename (f : String) : String :=
  String.mk ((stripExt f.data).map (fun c => if c = '_' || c = '-' then ' ' else c))

/-- The display title the route streams for the `i`-th source: the
if-chain of route.ts lines 280–299. -/
def extractTitle (i : Nat) (s : Source) : String :=
  if s.title ≠ "" ∧ s.title ≠ s.filename then s.title
  else if s.document_title ≠ "" then s.document_title
  else if s.name ≠ "" then s.name
  else if s.filename ≠ "" then
    if uuidLike s.filename then "Document " ++ toString (i + 1)
    else cleanFilename s.filename
  else "Document " ++ toString (i + 1)

/-- First non-empty string of the list, with a final default. -/
def firstNonEmpty : List String → String → String
  | [], d => d
  | x :: xs, d => if x ≠ "" then x else firstNonEmpty xs d

/-- Modelled from the spec: the C6 fallback order as the claim states it —
the title when distinct from the filename, then `document_title`, then
`name`, then the cleaned filename (the positional default standing in for
UUID-like filenames), then the positional default, taking the first
present non-empty value. -/
def specTitle (i : Nat) (s : Source) : String :=
  firstNonEmpty
    [ (if s.title ≠ "" ∧ s.title ≠ s.filename then s.title else "")
    , s.document_title
    , s.name
    , (if s.filename = "" then ""
       else if uuidLike s.filename then "Document " ++ toString (i + 1)
       else cleanFilename s.filename) ]
    ("Document " ++ toString (i + 1))

/-! ## Download links (route.ts, lines 301–307) -/

/-- An unreserved character of `encodeURIComponent`: ASCII alphanumerics
and `-_.!~*'()`. -/
def uriUnreserved (c : Char) : Bool :=
  c.isAlphanum || c = '-' || c = '_' || c = '.' || c = '!' || c = '~' ||
    c = '*' || c = '\x27' || c = '(' || c = ')'

/-- Upper-case hexadecimal digit for `n < 16`. -/
def hexDigitUpper (n : Nat) : Char :=
  if n < 10 then Char.ofNat (48 + n) else Char.ofNat (55 + n)

/-- UTF-8 encoding of one Unicode scalar value, as byte values. -/
def utf8Bytes (c : Char) : List Nat :=
  let n := c.toNat
  if n < 128 then [n]
  else if n < 2048 then [192 + n / 64, 128 + n % 64]
  else if n < 65536 then [224 + n / 4096, 128 + (n / 64) % 64, 128 + n % 64]
  else [240 + n / 262144, 128 + (n / 4096) % 64, 128 + (n / 64) % 64, 128 + n % 64]

/-- ECMAScript `encodeURIComponent`: unreserved characters kept, every
other character percent-encoded byte by byte. -/
def encodeURIComponent (s : String) : String :=
  String.mk (s.data.flatMap (fun c =>
    if uriUnreserved c then [c]
    else (utf8Bytes c).flatMap (fun b => ['%', hexDigitUpper (b / 16), hexDigitUpper (b % 16)])))

/-- The fallback base URL for download links inside the sources loop:
`process.env.BACKEND_URL || 'http://localhost:5000'` (route.ts, line 301),
modelled with the environment variable unset. -/
def downloadBase : String := "http://localhost:5000"

/-- The download URL the route streams for a source: the reply's
`download_url` when present and absolute, otherwise the backend download
endpoint keyed by the (URI-encoded) filename (route.ts, lines 304–307). -/
def resolveDownloadUrl (s : Source) : String :=
  if s.download_url ≠ "" ∧ leadsWith "http".data s.download_url.data then s.download_url
  else downloadBase ++ "/api/files/download/" ++ encodeURIComponent s.filename

/-- The download-link chunk streamed for a source (route.ts, line 320). -/
def downloadText (s : Source) : String :=
  "[📄 Download PDF](" ++ resolveDownloadUrl s ++ ")\n\n"

/-! ## The streamed chunk texts (route.ts, lines 110–329)

Each element is the `text` argument of one `sendChunk` call, in order;
the inter-chunk delays are timing only and are not modelled. -/

/-- The follow-up indicator chunks (route.ts, lines 128–135). -/
def followUpTexts (b : Bool) (ctx : Option FollowUpCtx) : List String :=
  match b, ctx with
  | true, some c =>
      "🔗 **Follow-up Response:**\n\n" ::
        (if c.previous_topic ≠ "" then
          ["*Building on our previous discussion about " ++ jsTake c.previous_topic 50 ++
            "...*\n\n"]
         else [])
  | _, _ => []
/-- The text before the interpolated reasoning in the collapsible
reasoning template (route.ts, lines 144--221). -/
def reasoningHtmlPre : String :=
  "
<style>
  .reasoning-summary \x7b
    background: linear-gradient(135deg, #f8f9fa 0%, #e9ecef 100%);
    padding: 16px 20px;
    cursor: pointer;
    font-weight: 500;
    font-size: 15px;
    color: #1a1a1a;
    display: flex;
    align-items: center;
    gap: 12px;
    user-select: none;
    border: none;
    outline: none;
    transition: all 0.2s ease;
    position: relative;
  \x7d
  .reasoning-summary:hover \x7b
    background: linear-gradient(135deg, #f1f3f4 0%, #e0e3e6 100%);
  \x7d
  .reasoning-chevron \x7b
    color: #6b7280;
    transition: transform 0.2s ease;
    transform: rotate(0deg);
  \x7d
  .reasoning-details[open] .reasoning-chevron \x7b
    transform: rotate(180deg);
  \x7d
</style>
<details class=\"reasoning-details\" style=\"
  margin: 20px 0;
  border: 1px solid rgba(0, 0, 0, 0.1);
  border-radius: 12px;
  overflow: hidden;
  background: #ffffff;
  box-shadow: 0 1px 3px rgba(0, 0, 0, 0.1);
  font-family: -apple-system, BlinkMacSystemFont, \x27Segoe UI\x27, \x27Roboto\x27, sans-serif;
\">
  <summary class=\"reasoning-summary\">
    <svg width=\"16\" height=\"16\" viewBox=\"0 0 24 24\" fill=\"none\" stroke=\"currentColor\" stroke-width=\"2\" style=\"color: #10a37f; flex-shrink: 0;\">
      <path d=\"M9.663 17h4.673M12 3v1m6.364 1.636l-.707.707M21 12h-1M4 12H3m3.343-5.657l-.707-.707m2.828 9.9a5 5 0 117.072 0l-.548.547A3.374 3.374 0 0014 18.469V19a2 2 0 11-4 0v-.531c0-.895-.356-1.754-.988-2.386l-.548-.547z\"/>
    </svg>
    <span style=\"flex: 1;\">Reasoning</span>
    <svg width=\"14\" height=\"14\" viewBox=\"0 0 24 24\" fill=\"none\" stroke=\"currentColor\" stroke-width=\"2.5\" class=\"reasoning-chevron\">
      <polyline points=\"6,9 12,15 18,9\"/>
    </svg>
  </summary>
  <div style=\"
    padding: 24px;
    background: #ffffff;
    border-top: 1px solid rgba(0, 0, 0, 0.06);
    line-height: 1.6;
    color: #374151;
  \">
    <div style=\"
      background: #f9fafb;
      padding: 20px;
      border-radius: 8px;
      border: 1px solid rgba(0, 0, 0, 0.05);
      position: relative;
    \">
      <div style=\"
        position: absolute;
        top: 0;
        left: 0;
        width: 4px;
        height: 100%;
        background: linear-gradient(to bottom, #10a37f, #0d8f6b);
        border-radius: 2px 0 0 2px;
      \"></div>
      <div style=\"
        font-size: 14px;
        line-height: 1.7;
        color: #1f2937;
        padding-left: 16px;
        white-space: pre-wrap;
      \">"

/-- The text after the interpolated reasoning in the collapsible
reasoning template (route.ts, lines 221--254). -/
def reasoningHtmlPost : String :=
  "</div>
    </div>
    <div style=\"
      margin-top: 16px;
      padding: 12px 16px;
      background: rgba(16, 163, 127, 0.05);
      border: 1px solid rgba(16, 163, 127, 0.2);
      border-radius: 8px;
      font-size: 13px;
      color: #0d8f6b;
      display: flex;
      align-items: center;
      gap: 8px;
    \">
      <svg width=\"14\" height=\"14\" viewBox=\"0 0 24 24\" fill=\"none\" stroke=\"currentColor\" stroke-width=\"2\">
        <circle cx=\"12\" cy=\"12\" r=\"10\"/>
        <path d=\"m9,12 2,2 4,-4\"/>
      </svg>
      <span>This reasoning was generated by our AI to explain the thought process behind the response.</span>
    </div>
  </div>
</details>

<style>
details[open] summary svg:last-child \x7b
  transform: rotate(180deg) !important;
\x7d
details summary::-webkit-details-marker \x7b
  display: none;
\x7d
details summary::marker \x7b
  content: \"\";
\x7d
</style>"

/-- The full collapsible reasoning section streamed as one chunk: the
template with the reasoning text (newlines turned into `<br>`)
interpolated (route.ts, lines 144–254). -/
def reasoningHtml (r : String) : String :=
  reasoningHtmlPre ++ r.replace "\n" "<br>" ++ reasoningHtmlPost

/-- The reasoning-section chunks (route.ts, lines 138–258): emitted only
when the reasoning text is non-blank. -/
def reasoningTexts (r : String) : List String :=
  if jsTrim r ≠ "" then ["\n\n---\n\n", reasoningHtml r, "\n\n---\n\n"] else []

/-- The word-by-word answer chunks (route.ts, lines 261–267): the answer
split on single spaces, each word but the last re-suffixed with a space. -/
def answerTexts (resp : String) : List String :=
  let ws := jsSplitSpace resp
  ws.enum.map (fun p => p.2 ++ if p.1 + 1 < ws.length then " " else "")

/-- The joined department line: `[department, sub_department]` filtered
for truthiness and joined with a separator (route.ts, line 316). -/
def deptJoin (s : Source) : String :=
  String.intercalate " › " ([s.department, s.sub_department].filter (fun x => x ≠ ""))

/-- The chunks streamed for the `i`-th source: numbered title, then an
excerpt line or a department line when available, then the download link
(route.ts, lines 309–320). -/
def sourceEntryTexts (i : Nat) (s : Source) : List String :=
  ["**" ++ toString (i + 1) ++ ". " ++ extractTitle i s ++ "**\n"] ++
    (if s.excerpt ≠ "" then
      ["*" ++ (jsTake s.excerpt 150 ++ if 150 < s.excerpt.length then "..." else "") ++ "*\n"]
     else if s.department ≠ "" ∨ s.sub_department ≠ "" then
      ["*Department: " ++ deptJoin s ++ "*\n"]
     else []) ++
    [downloadText s]

/-- The source entries of the `for` loop over `sources`, with the running
index (route.ts, lines 276–321). -/
def sourcesEntriesTexts : Nat → List Source → List String
  | _, [] => []
  | i, s :: rest => sourceEntryTexts i s ++ sourcesEntriesTexts (i + 1) rest

/-- The whole sources section (route.ts, lines 270–322): nothing at all
when the sources list is empty, otherwise a divider, the section header
and the per-source entries. -/
def sourcesTexts (l : List Source) : List String :=
  match l with
  | [] => []
  | _ :: _ => "\n\n---\n\n" :: "### 📁 Source Documents\n\n" :: sourcesEntriesTexts 0 l

/-- The chunks streamed before the sources section: follow-up indicator,
reasoning section, word-by-word answer. -/
def preSourceTexts (a : Assembled) : List String :=
  followUpTexts a.isFollowUp a.followUpContext ++ reasoningTexts a.reasoning ++
    answerTexts a.aiResponse

/-- All `sendChunk` texts of one successful streamed response, in order
(route.ts, lines 128–322). -/
def streamTexts (a : Assembled) : List String :=
  preSourceTexts a ++ sourcesTexts a.sources

/-- Recognizes a download-link chunk by its leading `[`: within the
sources section, the download links are the only chunks opening a
markdown link, every other chunk there starts with `*`, `#` or a
newline. -/
def isDownloadChunk (c : String) : Bool :=
  c.data.head? = some '['

/-! ## The request handler (route.ts, lines 4–394) -/

/-- One element of an OpenAI-style content-part array. -/
structure ContentPart where
  type : String := ""
  text : Option String := none
deriving DecidableEq

/-- The `content` field of an inbound message: a string, an array of
parts, or any other JavaScript value (carried as its `String(content)`
conversion). -/
inductive MsgContent
  | str (s : String)
  | parts (ps : List ContentPart)
  | other (stringified : String)
deriving DecidableEq

/-- An inbound chat message. -/
structure Message where
  role : String := ""
  content : MsgContent := .str ""
deriving DecidableEq

/-- Text extraction from the latest user message (route.ts, lines 15–24):
the string itself, or the `text` of the first part with `type === 'text'`
(with `|| ''` fallbacks), or the stringified value. -/
def extractText (m : Message) : String :=
  match m.content with
  | .str s => s
  | .parts ps =>
      match ps.find? (fun p => p.type = "text") with
      | some p => p.text.getD ""
      | none => ""
  | .other s => s

/-- The outcome of parsing and destructuring the request body:
`req.json()` threw, the body had no usable `messages` array (so reading
`messages.length` throws), or a messages array was obtained. -/
inductive ReqOutcome
  | parseError
  | missingMessages
  | withMessages (messages : List Message)
deriving DecidableEq

/-- The observable behavior of the backend `fetch` for this request: the
fetch threw, the response was not ok (the route then throws), the
response body was not JSON (`response.json()` threw), or a parsed reply
was obtained. -/
inductive Backend
  | netError
  | httpError
  | badJsonBody
  | replies (d : BackendData)
deriving DecidableEq

/-- An HTTP response the handler returns: a plain-text response, or a
streamed response carrying its chunk texts and its final finish reason. -/
inductive JsResponse
  | plain (status : Nat) (body : String)
  | stream (status : Nat) (chunkTexts : List String) (finishReason : String)
deriving DecidableEq

/-- The HTTP status of a response. -/
def JsResponse.statusCode : JsResponse → Nat
  | .plain st _ => st
  | .stream st _ _ => st

/-- The finish reason of a streamed response. -/
def JsResponse.finishOf : JsResponse → Option String
  | .plain _ _ => none
  | .stream _ _ r => some r

/-- The fixed apology of the outer catch block (route.ts, line 357). -/
def catchApology : String :=
  "I apologize, but I encountered an error while processing your request. Please try again."

/-- The response built by the outer catch block (route.ts, lines 352–393):
a streamed apology with finish reason `error`, returned with status 200. -/
def errorFallbackResponse : JsResponse :=
  .stream 200 [catchApology] "error"

/-- The body of the `try` block of `POST` (route.ts, lines 5–350): either
a response, or `.error ()` when the original code would throw; also
counts the backend `fetch` calls issued. -/
def postInner (req : ReqOutcome) (bb : Backend) : Except Unit JsResponse × Nat :=
  match req with
  | .parseError => (.error (), 0)
  | .missingMessages => (.error (), 0)
  | .withMessages msgs =>
      match msgs.getLast? with
      | none => (.ok (.plain 400 "Invalid message format"), 0)
      | some um =>
          if um.role ≠ "user" then (.ok (.plain 400 "Invalid message format"), 0)
          else if jsTrim (extractText um) = "" then
            (.ok (.plain 400 "Empty message content"), 0)
          else
            match bb with
            | .netError => (.error (), 1)
            | .httpError => (.error (), 1)
            | .badJsonBody => (.error (), 1)
            | .replies d =>
                match assembleE d with
                | .error _ => (.error (), 1)
                | .ok a => (.ok (.stream 200 (streamTexts a) "stop"), 1)

/-- The full `POST` handler: the `try` body with the outer catch turning
any thrown error into the fixed apology stream. -/
def POST (req : ReqOutcome) (bb : Backend) : JsResponse :=
  match (postInner req bb).1 with
  | .ok r => r
  | .error _ => errorFallbackResponse

end ChatRoute

namespace CoreModel

/-- Modelled from the spec: one casual-conversation category of §4.1 —
an ordered list of exact patterns and a non-empty canned response set.
The classifier source (the Python backend's query classifier) is not in
the repository snapshot. -/
structure CasualCategory where
  name : String
  patterns : List String
  responses : List String
deriving DecidableEq

/-- Modelled from the spec: the ordered casual-category table (greeting,
goodbye, thanks, small talk, identity questions), first matching category
wins in declaration order. -/
def casualCategories : List CasualCategory :=
  [ { name := "greeting"
    , patterns := ["hi", "hello", "hey", "good morning", "good afternoon", "good evening"]
    , responses := ["Hello! How can I help you today?", "Hi there! What would you like to know?"] }
  , { name := "goodbye"
    , patterns := ["bye", "goodbye", "see you", "farewell"]
    , responses := ["Goodbye! Feel free to come back anytime.", "See you later!"] }
  , { name := "thanks"
    , patterns := ["thanks", "thank you", "thx"]
    , responses := ["You are welcome!", "Happy to help!"] }
  , { name := "smalltalk"
    , patterns := ["how are you", "whats up"]
    , responses := ["I am doing well, thank you for asking! How can I assist you?"] }
  , { name := "identity"
    , patterns := ["who are you", "what is your name"]
    , responses := ["I am an assistant for institutional documents. Ask me anything about them!"] } ]

/-- Modelled from the spec: the independent-educational-question starter
patterns of the §4.1 override. -/
def independentStarters : List String :=
  ["what is", "how do", "how does", "explain"]

/-- Modelled from the spec: query normalization — lowercase and trim. -/
def normalizeQuery (q : String) : String :=
  ChatRoute.jsTrim (ChatRoute.jsToLower q)

/-- Modelled from the spec: the independent-question override test. -/
def isIndependentQuestion (n : String) : Bool :=
  independentStarters.any (fun p => ChatRoute.leadsWith p.data n.data)

/-- Modelled from the spec: the first category one of whose patterns
matches the normalized query exactly. -/
def matchCasual (n : String) : Option CasualCategory :=
  casualCategories.find? (fun cat => cat.patterns.any (fun p => p = n))

/-- Modelled from the spec: deterministic selection of a canned response
from the matched category's set. -/
def pickResponse (cat : CasualCategory) (n : String) : String :=
  cat.responses.getD (n.length % cat.responses.length) ""

/-- Modelled from the spec: the complexity estimate of §4.1. -/
inductive Complexity
  | SIMPLE
  | MODERATE
  | COMPLEX
deriving DecidableEq

/-- Modelled from the spec: SIMPLE-query markers. -/
def simplePatterns : List String :=
  ["when is", "what time", "what date", "yes or no"]

/-- Modelled from the spec: COMPLEX-query markers. -/
def complexPatterns : List String :=
  ["analyze", "compare", "strategy", "evaluate", "pros and cons"]

/-- Modelled from the spec: complexity classification; a query matching
both pattern sets resolves to COMPLEX, neither to MODERATE. -/
def complexityOf (n : String) : Complexity :=
  if complexPatterns.any (fun p => ChatRoute.containsSeq p.data n.data) then .COMPLEX
  else if simplePatterns.any (fun p => ChatRoute.containsSeq p.data n.data) then .SIMPLE
  else .MODERATE

/-- The result of query classification. -/
inductive ClassifyOutcome
  | casual (cat : CasualCategory) (response : String)
  | informational (cx : Complexity)
deriving DecidableEq

/-- Modelled from the spec: `classify` of §4.1 — casual-pattern match
with the independent-question override, otherwise complexity
classification. -/
def classify (q : String) : ClassifyOutcome :=
  let n := normalizeQuery q
  match matchCasual n with
  | some cat =>
      if isIndependentQuestion n then .informational (complexityOf n)
      else .casual cat (pickResponse cat n)
  | none => .informational (complexityOf n)

/-- Call-count stubs for the vector-search and generation services. -/
structure PipelineStubs where
  searchResults : List (String × ℚ) := []
  genAnswer : String := ""
deriving DecidableEq

/-- The observable outcome of one `process_query` call: the answer, the
source names, and how many times each stubbed service was invoked. -/
structure ProcessOutcome where
  answer : String
  sources : List String
  searchCalls : Nat
  genCalls : Nat
deriving DecidableEq

/-- Modelled from the spec: `process_query` — casual turns short-circuit
with a canned response and no service calls; informational turns invoke
the vector-search stub once and the generation stub once. -/
def process_query (st : PipelineStubs) (q : String) : ProcessOutcome :=
  match classify q with
  | .casual _ resp => { answer := resp, sources := [], searchCalls := 0, genCalls := 0 }
  | .informational _ =>
      { answer := st.genAnswer, sources := st.searchResults.map Prod.fst
      , searchCalls := 1, genCalls := 1 }

end CoreModel

/-! # Theorems -/

namespace ChatRoute

theorem replacePass_append (t : Char) (r : List Char) (a b : List Char) :
    replacePass t r (a ++ b) = replacePass t r a ++ replacePass t r b := by
  simp [replacePass]

theorem manualEscapeList_append (a b : List Char) :
    manualEscapeList (a ++ b) = manualEscapeList a ++ manualEscapeList b := by
  simp [manualEscapeList, replacePass_append]

theorem manualEscapeList_singleton (c : Char) :
    manualEscapeList [c] = manualEscapeChar c := by
  by_cases h1 : c = '\\'
  · subst h1; rfl
  · by_cases h2 : c = '"'
    · subst h2; rfl
    · by_cases h3 : c = '\n'
      · subst h3; rfl
      · by_cases h4 : c = '\r'
        · subst h4; rfl
        · by_cases h5 : c = '\t'
          · subst h5; rfl
          · simp [manualEscapeList, manualEscapeChar, replacePass, h1, h2, h3, h4, h5]

theorem manualEscapeList_eq_flatMap (l : List Char) :
    manualEscapeList l = l.flatMap manualEscapeChar := by
  induction l with
  | nil => rfl
  | cons c t ih =>
      have hsplit : (c :: t) = [c] ++ t := rfl
      rw [hsplit, manualEscapeList_append, ih, manualEscapeList_singleton]
      simp

theorem jsonEscape_eq_flatMap (s : String) :
    jsonEscape s = String.mk (s.data.flatMap jsonEscapeChar) := by
  have hdata : (jsonStringifyString s).data =
      '"' :: (s.data.flatMap jsonEscapeChar ++ ['"']) := by
    simp [jsonStringifyString]
  simp [jsonEscape, sliceOneToMinusOne, hdata]

theorem escapeChar_eq_of_printable (c : Char)
    (h : 32 ≤ c.toNat ∨ c = '\n' ∨ c = '\r' ∨ c = '\t') :
    manualEscapeChar c = jsonEscapeChar c := by
  by_cases h1 : c = '\\'
  · subst h1; rfl
  · by_cases h2 : c = '"'
    · subst h2; rfl
    · by_cases h3 : c = '\n'
      · subst h3; rfl
      · by_cases h4 : c = '\r'
        · subst h4; rfl
        · by_cases h5 : c = '\t'
          · subst h5; rfl
          · have h32 : 32 ≤ c.toNat := by
              rcases h with h | h | h | h
              · exact h
              · exact absurd h h3
              · exact absurd h h4
              · exact absurd h h5
            have hb : c ≠ '\x08' := by
              intro hc; subst hc; exact absurd h32 (by decide)
            have hf : c ≠ '\x0c' := by
              intro hc; subst hc; exact absurd h32 (by decide)
            have hlt : ¬ c.toNat < 32 := by omega
            simp [manualEscapeChar, jsonEscapeChar, h1, h2, h3, h4, h5, hb, hf, hlt]

theorem flatMap_congr_of_mem {α β : Type} (f g : α → List β) :
    ∀ l : List α, (∀ c ∈ l, f c = g c) → l.flatMap f = l.flatMap g := by
  intro l
  induction l with
  | nil => intro _; rfl
  | cons a t ih =>
      intro h
      simp only [List.flatMap_cons]
      rw [h a (by simp), ih (fun c hc => h c (by simp [hc]))]

/-- C9: the claim as stated is false — the two escapers disagree on the
one-character string holding a backspace (U+0008): `JSON.stringify`-based
escaping yields the two characters backslash-`b`, while the manual
five-substitution escaping leaves the backspace character unchanged. -/
theorem c9_escaping_counterexample :
    manualEscape "\x08" = "\x08" ∧ jsonEscape "\x08" = "\\b" ∧
      manualEscape "\x08" ≠ jsonEscape "\x08" := by
  refine ⟨by decide, by decide, by decide⟩

/-- C9 (amended): the manual five-substitution escaping of the older
route's `sendChunk` and the `JSON.stringify`-based escaping of the current
route's `sendChunk` produce the same escaped string for every input string
whose characters are all either printable (code point at least 32) or one
of newline, carriage return, tab; they differ on the remaining control
characters, which only `JSON.stringify` escapes. -/
theorem c9_escaping_agree_amended (s : String)
    (h : ∀ c ∈ s.data, 32 ≤ c.toNat ∨ c = '\n' ∨ c = '\r' ∨ c = '\t') :
    manualEscape s = jsonEscape s := by
  rw [jsonEscape_eq_flatMap, manualEscape, manualEscapeList_eq_flatMap]
  exact congrArg String.mk
    (flatMap_congr_of_mem _ _ s.data (fun c hc => escapeChar_eq_of_printable c (h c hc)))

/-- Witness for C9 (amended) at the concrete string `ab"c\d` + newline + `e`. -/
theorem c9_escaping_agree_witness :
    (∀ c ∈ ("ab\"c\\d\ne" : String).data,
        32 ≤ c.toNat ∨ c = '\n' ∨ c = '\r' ∨ c = '\t') ∧
      manualEscape "ab\"c\\d\ne" = jsonEscape "ab\"c\\d\ne" :=
  ⟨by decide, c9_escaping_agree_amended "ab\"c\\d\ne" (by decide)⟩

/-- C3: for every backend reply whose `error` field is set, the assembly
succeeds (no exception reaches the caller) and yields empty sources,
confidence 0 and `is_follow_up` false, with the answer text falling back
to the fixed apology whenever the reply carries no `ai_message` content. -/
theorem c3_error_reply_degraded (d : BackendData) (h : d.error = true) :
    ∃ a, assembleE d = Except.ok a ∧ a.sources = [] ∧ a.confidence = 0 ∧
      a.isFollowUp = false ∧
      ((d.ai_message.map AiMessage.content).getD "" = "" →
        a.aiResponse = assembleApology) := by
  cases hm : d.ai_message with
  | none =>
      exact ⟨{ aiResponse := assembleApology, reasoning := "", sources := []
             , confidence := 0, isFollowUp := false, followUpContext := none },
        by simp [assembleE, h, hm], rfl, rfl, rfl, fun _ => rfl⟩
  | some m =>
      by_cases hc : m.content = ""
      · exact ⟨{ aiResponse := assembleApology, reasoning := m.reasoning, sources := []
               , confidence := 0, isFollowUp := false, followUpContext := none },
          by simp [assembleE, h, hm, hc], rfl, rfl, rfl, fun _ => rfl⟩
      · exact ⟨{ aiResponse := m.content, reasoning := m.reasoning, sources := []
               , confidence := 0, isFollowUp := false, followUpContext := none },
          by simp [assembleE, h, hm, hc], rfl, rfl, rfl,
          fun hmc => absurd (by simpa [hm] using hmc) hc⟩

/-- Witness for C3 at the error reply with no `ai_message`. -/
theorem c3_error_reply_witness :
    ({ error := true, ai_message := none } : BackendData).error = true ∧
      ∃ a, assembleE { error := true, ai_message := none } = Except.ok a ∧
        a.sources = [] ∧ a.confidence = 0 ∧ a.isFollowUp = false ∧
        ((({ error := true, ai_message := none } : BackendData).ai_message.map
            AiMessage.content).getD "" = "" → a.aiResponse = assembleApology) :=
  ⟨rfl, c3_error_reply_degraded { error := true, ai_message := none } rfl⟩

/-- C5: the claim as stated is false — a backend reply whose metadata
carries the out-of-range confidence 2 is assembled with confidence 2,
which is not in the interval [0,1]; the `|| 0` fallback only replaces
absent or zero values, it does not clamp. -/
theorem c5_confidence_counterexample :
    assembleE { error := false
              , ai_message := some { content := "ok", reasoning := ""
                                   , metadata := some { confidence := some 2 } } } =
      Except.ok { aiResponse := "ok", reasoning := "", sources := []
                , confidence := 2, isFollowUp := false, followUpContext := none } ∧
      ¬ ((2 : ℚ) ≤ 1) := by
  constructor
  · rfl
  · norm_num

/-- C5 (amended): the assembled confidence is `metadata.confidence || 0`,
so it lies in [0,1] exactly when the reply's confidence value is absent,
falsy, or itself in [0,1]; under that precondition the assembled
confidence is a value in [0,1]. -/
theorem c5_confidence_in_range_amended (d : BackendData) (a : Assembled)
    (hok : assembleE d = Except.ok a)
    (h : ∀ c, metaConfidence d = some c → 0 ≤ c ∧ c ≤ 1) :
    0 ≤ a.confidence ∧ a.confidence ≤ 1 := by
  by_cases he : d.error
  · simp [assembleE, he] at hok
    rw [← hok]
    norm_num
  · cases hm : d.ai_message with
    | none => simp [assembleE, he, hm] at hok
    | some m =>
        cases hmd : m.metadata with
        | none =>
            simp [assembleE, he, hm, hmd, defaultMetadata] at hok
            rw [← hok]
            norm_num
        | some md =>
            cases hc : md.confidence with
            | none =>
                simp [assembleE, he, hm, hmd, hc] at hok
                rw [← hok]
                norm_num
            | some c =>
                have hrange : 0 ≤ c ∧ c ≤ 1 := by
                  exact h c (by simp [metaConfidence, hm, hmd, hc])
                simp [assembleE, he, hm, hmd, hc] at hok
                rw [← hok]
                by_cases hz : c = 0
                · simp [hz]
                · simp [hz]
                  exact hrange

/-- Witness for C5 (amended) at a reply carrying confidence 1/2. -/
theorem c5_confidence_witness :
    (0 : ℚ) ≤ (Assembled.mk "ok" "" [] (1/2) false none).confidence ∧
      (Assembled.mk "ok" "" [] (1/2) false none).confidence ≤ 1 :=
  c5_confidence_in_range_amended
    { error := false
    , ai_message := some { content := "ok", reasoning := ""
                         , metadata := some { confidence := some (1/2) } } }
    (Assembled.mk "ok" "" [] (1/2) false none)
    (by norm_num [assembleE])
    (by
      intro c hc
      have heq : some (1/2 : ℚ) = some c := hc
      cases heq
      norm_num)

/-- C6: the claim as stated is false — for a source whose only present
field is the filename `".pdf"`, cleaning strips the whole string, and the
route uses that empty cleaned filename as the title instead of falling
through to the next non-empty candidate, the positional default. -/
theorem c6_title_counterexample :
    extractTitle 0 { filename := ".pdf" } = "" ∧
      specTitle 0 { filename := ".pdf" } = "Document 1" ∧
      extractTitle 0 { filename := ".pdf" } ≠ specTitle 0 { filename := ".pdf" } := by
  refine ⟨by decide, by decide, by decide⟩

/-- C6 (amended): the display title falls through the fixed order
title-when-distinct-from-filename, `document_title`, `name` by first
present non-empty value, but once a non-empty filename is reached its
derived value (positional default for UUID-like filenames, cleaned
filename otherwise) is used unconditionally, even when cleaning yields an
empty string; the positional default is used when no field is present. -/
theorem c6_title_fallback_amended (i : Nat) (s : Source) :
    extractTitle i s =
      firstNonEmpty
        [ (if s.title ≠ "" ∧ s.title ≠ s.filename then s.title else "")
        , s.document_title
        , s.name ]
        (if s.filename ≠ "" then
          (if uuidLike s.filename then "Document " ++ toString (i + 1)
           else cleanFilename s.filename)
         else "Document " ++ toString (i + 1)) := by
  by_cases h1 : s.title ≠ "" ∧ s.title ≠ s.filename
  · simp [extractTitle, firstNonEmpty, h1, h1.1]
  · by_cases h2 : s.document_title ≠ ""
    · simp [extractTitle, firstNonEmpty, h1, h2]
    · by_cases h3 : s.name ≠ ""
      · simp [extractTitle, firstNonEmpty, h1, h2, h3]
      · by_cases h4 : s.filename ≠ ""
        · simp [extractTitle, firstNonEmpty, h1, h2, h3, h4]
        · simp [extractTitle, firstNonEmpty, h1, h2, h3, h4]

end ChatRoute

namespace ChatRoute

theorem isDownloadChunk_of_data (c : String) (x : List Char)
    (h : c.data = '[' :: x) : isDownloadChunk c = true := by
  simp [isDownloadChunk, h]

theorem not_isDownloadChunk_of_data (c : String) (a : Char) (x : List Char)
    (h : c.data = a :: x) (ha : a ≠ '[') : isDownloadChunk c = false := by
  simp [isDownloadChunk, h, ha]

theorem isDownloadChunk_downloadText (s : Source) :
    isDownloadChunk (downloadText s) = true := by
  apply isDownloadChunk_of_data _ (("📄 Download PDF](" : String).data ++
    (resolveDownloadUrl s).data ++ (")\n\n" : String).data)
  simp [downloadText, String.data_append]

theorem sourceEntryTexts_filter (i : Nat) (s : Source) :
    (sourceEntryTexts i s).filter isDownloadChunk = [downloadText s] := by
  have htitle : isDownloadChunk
      ("**" ++ toString (i + 1) ++ ". " ++ extractTitle i s ++ "**\n") = false := by
    apply not_isDownloadChunk_of_data _ '*'
      (('*' :: []) ++ (toString (i + 1)).data ++ (". " : String).data ++
        (extractTitle i s).data ++ ("**\n" : String).data)
    · simp [String.data_append]
    · decide
  have hexc : isDownloadChunk
      ("*" ++ (jsTake s.excerpt 150 ++ if 150 < s.excerpt.length then "..." else "") ++
        "*\n") = false := by
    apply not_isDownloadChunk_of_data _ '*'
      ((jsTake s.excerpt 150 ++ if 150 < s.excerpt.length then "..." else "").data ++
        ("*\n" : String).data)
    · simp [String.data_append]
    · decide
  have hdept : isDownloadChunk ("*Department: " ++ deptJoin s ++ "*\n") = false := by
    apply not_isDownloadChunk_of_data _ '*'
      (("Department: " : String).data ++ (deptJoin s).data ++ ("*\n" : String).data)
    · simp [String.data_append]
    · decide
  unfold sourceEntryTexts
  by_cases h1 : s.excerpt ≠ ""
  · simp [h1, List.filter_append, htitle, hexc, isDownloadChunk_downloadText]
  · by_cases h2 : s.department ≠ "" ∨ s.sub_department ≠ ""
    · simp [h1, h2, List.filter_append, htitle, hdept, isDownloadChunk_downloadText]
    · simp [h1, h2, List.filter_append, htitle, isDownloadChunk_downloadText]

theorem sourcesEntriesTexts_filter :
    ∀ (l : List Source) (i : Nat),
      (sourcesEntriesTexts i l).filter isDownloadChunk = l.map downloadText := by
  intro l
  induction l with
  | nil => intro i; rfl
  | cons s t ih =>
      intro i
      simp [sourcesEntriesTexts, List.filter_append, sourceEntryTexts_filter, ih (i + 1)]

/-- C8: the streamed output is the pre-source chunks followed by the
sources section; that section carries exactly one download-link chunk per
source of the reply, in the order of the reply's sources list, and is
entirely absent when the sources list is empty. -/
theorem c8_sources_section (a : Assembled) :
    streamTexts a = preSourceTexts a ++ sourcesTexts a.sources ∧
      (sourcesTexts a.sources).filter isDownloadChunk = a.sources.map downloadText ∧
      (a.sources = [] → sourcesTexts a.sources = []) := by
  refine ⟨rfl, ?_, ?_⟩
  · cases hs : a.sources with
    | nil => rfl
    | cons s t =>
        have hdiv : isDownloadChunk "\n\n---\n\n" = false := by decide
        have hhdr : isDownloadChunk "### 📁 Source Documents\n\n" = false := by decide
        simp [sourcesTexts, hdiv, hhdr, sourcesEntriesTexts_filter]
  · intro h
    rw [h]
    rfl

/-- Witness for C8 at a reply with no sources. -/
theorem c8_sources_section_witness :
    streamTexts { aiResponse := "ok" } =
        preSourceTexts { aiResponse := "ok" } ++
          sourcesTexts (Assembled.sources { aiResponse := "ok" }) ∧
      (sourcesTexts (Assembled.sources { aiResponse := "ok" })).filter isDownloadChunk =
        (Assembled.sources { aiResponse := "ok" }).map downloadText ∧
      sourcesTexts (Assembled.sources { aiResponse := "ok" }) = [] :=
  ⟨(c8_sources_section { aiResponse := "ok" }).1,
   (c8_sources_section { aiResponse := "ok" }).2.1,
   (c8_sources_section { aiResponse := "ok" }).2.2 rfl⟩

set_option maxRecDepth 8192 in
/-- C7: the claim as stated is false — at a reply with `is_follow_up`
true and a follow-up context recording both a previous topic and the
detected phrase `zqxphrase`, no chunk of the streamed output contains
that phrase: the current route never emits the triggering phrases. -/
theorem c7_phrases_counterexample :
    (Assembled.mk "ok" "" [] 1 true
        (some ⟨"formative assessment", ["zqxphrase"]⟩)).isFollowUp = true ∧
      (Assembled.mk "ok" "" [] 1 true
        (some ⟨"formative assessment", ["zqxphrase"]⟩)).followUpContext =
        some ⟨"formative assessment", ["zqxphrase"]⟩ ∧
      (streamTexts (Assembled.mk "ok" "" [] 1 true
        (some ⟨"formative assessment", ["zqxphrase"]⟩))).all
        (fun c => !(containsSeq ("zqxphrase" : String).data c.data)) = true := by
  refine ⟨rfl, rfl, by decide⟩

/-- C7 (amended): whenever the reply has `is_follow_up` true and a
non-null `follow_up_context`, the stream opens with the follow-up header
chunk, followed — only when the context's `previous_topic` is present —
by one chunk referencing that prior topic; the detected phrases are never
emitted; when `is_follow_up` is false or the context is null, no
follow-up chunks are emitted at all. -/
theorem c7_follow_up_prefix_amended (a : Assembled) :
    streamTexts a =
      followUpTexts a.isFollowUp a.followUpContext ++ reasoningTexts a.reasoning ++
        answerTexts a.aiResponse ++ sourcesTexts a.sources ∧
      (∀ ctx, a.isFollowUp = true → a.followUpContext = some ctx →
        followUpTexts a.isFollowUp a.followUpContext =
          "🔗 **Follow-up Response:**\n\n" ::
            (if ctx.previous_topic ≠ "" then
              ["*Building on our previous discussion about " ++ jsTake ctx.previous_topic 50 ++
                "...*\n\n"]
             else [])) ∧
      ((a.isFollowUp = false ∨ a.followUpContext = none) →
        followUpTexts a.isFollowUp a.followUpContext = []) := by
  refine ⟨by simp [streamTexts, preSourceTexts], ?_, ?_⟩
  · intro ctx hb hc
    rw [hb, hc]
    rfl
  · intro h
    rcases h with h | h
    · rw [h]
      cases a.followUpContext <;> rfl
    · rw [h]
      cases a.isFollowUp <;> rfl

/-- Witness for C7 (amended) at a follow-up reply with previous topic `x`. -/
theorem c7_follow_up_prefix_witness :
    followUpTexts (Assembled.mk "ok" "" [] 1 true (some ⟨"x", []⟩)).isFollowUp
        (Assembled.mk "ok" "" [] 1 true (some ⟨"x", []⟩)).followUpContext =
      "🔗 **Follow-up Response:**\n\n" ::
        (if ("x" : String) ≠ "" then
          ["*Building on our previous discussion about " ++ jsTake "x" 50 ++
            "...*\n\n"]
         else []) :=
  (c7_follow_up_prefix_amended (Assembled.mk "ok" "" [] 1 true (some ⟨"x", []⟩))).2.1
    ⟨"x", []⟩ rfl rfl

end ChatRoute

namespace ChatRoute

theorem postInner_ok_status (req : ReqOutcome) (bb : Backend) (r : JsResponse)
    (h : (postInner req bb).1 = Except.ok r) :
    r.statusCode = 200 ∨ r.statusCode = 400 := by
  cases req with
  | parseError => simp [postInner] at h
  | missingMessages => simp [postInner] at h
  | withMessages msgs =>
      cases hl : msgs.getLast? with
      | none =>
          simp [postInner, hl] at h
          rw [← h]
          right; rfl
      | some um =>
          by_cases hrole : um.role ≠ "user"
          · simp [postInner, hl, hrole] at h
            rw [← h]
            right; rfl
          · by_cases hempty : jsTrim (extractText um) = ""
            · simp [postInner, hl, hrole, hempty] at h
              rw [← h]
              right; rfl
            · cases bb with
              | netError => simp [postInner, hl, hrole, hempty] at h
              | httpError => simp [postInner, hl, hrole, hempty] at h
              | badJsonBody => simp [postInner, hl, hrole, hempty] at h
              | replies d =>
                  cases ha : assembleE d with
                  | error e => simp [postInner, hl, hrole, hempty, ha] at h
                  | ok a =>
                      simp [postInner, hl, hrole, hempty, ha] at h
                      rw [← h]
                      left; rfl

/-- C1: for every request outcome and every behavior of the backend call
(success reply, error reply, non-ok status, malformed body, or thrown
network error), the handler returns an HTTP response with status 200 or
400, and whenever the try-block would throw, the returned response is
exactly the fixed apology stream with finish reason `error` and status
200 — no internal error escapes `POST`. -/
theorem c1_handler_no_escape (req : ReqOutcome) (bb : Backend) :
    ((POST req bb).statusCode = 200 ∨ (POST req bb).statusCode = 400) ∧
      (∀ e, (postInner req bb).1 = Except.error e → POST req bb = errorFallbackResponse) ∧
      errorFallbackResponse = JsResponse.stream 200 [catchApology] "error" := by
  refine ⟨?_, ?_, rfl⟩
  · cases hr : (postInner req bb).1 with
    | ok r =>
        have hp : POST req bb = r := by simp [POST, hr]
        rw [hp]
        exact postInner_ok_status req bb r hr
    | error e =>
        have hp : POST req bb = errorFallbackResponse := by simp [POST, hr]
        rw [hp]
        left; rfl
  · intro e he
    simp [POST, he]

/-- Witness for C1 at a valid request whose backend fetch throws. -/
theorem c1_handler_no_escape_witness :
    ((POST (.withMessages [{ role := "user", content := .str "hello" }]) .netError).statusCode =
          200 ∨
        (POST (.withMessages [{ role := "user", content := .str "hello" }]) .netError).statusCode =
          400) ∧
      (postInner (.withMessages [{ role := "user", content := .str "hello" }]) .netError).1 =
        Except.error () ∧
      POST (.withMessages [{ role := "user", content := .str "hello" }]) .netError =
        errorFallbackResponse :=
  ⟨(c1_handler_no_escape (.withMessages [{ role := "user", content := .str "hello" }])
      .netError).1,
   rfl,
   (c1_handler_no_escape (.withMessages [{ role := "user", content := .str "hello" }])
      .netError).2.1 () rfl⟩

/-- C4: for every request whose latest message is a user message with
text empty after trimming, the handler returns the fixed 400
`Empty message content` response, and the backend fetch count is 0 — no
external call is made before the early return, for any backend
behavior. -/
theorem c4_empty_message_fail_fast (msgs : List Message) (um : Message) (bb : Backend)
    (hl : msgs.getLast? = some um) (hrole : um.role = "user")
    (hempty : jsTrim (extractText um) = "") :
    (postInner (.withMessages msgs) bb).1 =
        Except.ok (.plain 400 "Empty message content") ∧
      (postInner (.withMessages msgs) bb).2 = 0 := by
  constructor <;> simp [postInner, hl, hrole, hempty]

/-- Witness for C4 at a single all-blank user message. -/
theorem c4_empty_message_witness :
    (postInner (.withMessages [{ role := "user", content := .str "   " }]) .netError).1 =
        Except.ok (.plain 400 "Empty message content") ∧
      (postInner (.withMessages [{ role := "user", content := .str "   " }]) .netError).2 = 0 :=
  c4_empty_message_fail_fast [{ role := "user", content := .str "   " }]
    { role := "user", content := .str "   " } .netError (by decide) rfl (by decide)

/-- C10: for every request whose messages array is empty, or whose last
element does not have role `user`, the handler returns the 400
`Invalid message format` response with no backend fetch issued; the
guarded access to the last element is total (it yields an `ok` response,
never a fault), for any backend behavior. -/
theorem c10_invalid_format_guard (msgs : List Message) (bb : Backend)
    (h : msgs = [] ∨ ∃ um, msgs.getLast? = some um ∧ um.role ≠ "user") :
    (postInner (.withMessages msgs) bb).1 =
        Except.ok (.plain 400 "Invalid message format") ∧
      (postInner (.withMessages msgs) bb).2 = 0 := by
  rcases h with h | ⟨um, hl, hrole⟩
  · subst h
    constructor <;> rfl
  · constructor <;> simp [postInner, hl, hrole]

/-- Witness for C10 at the empty messages array. -/
theorem c10_invalid_format_witness :
    (postInner (.withMessages []) .netError).1 =
        Except.ok (.plain 400 "Invalid message format") ∧
      (postInner (.withMessages []) .netError).2 = 0 :=
  c10_invalid_format_guard [] .netError (Or.inl rfl)

end ChatRoute

namespace CoreModel

/-- C2: for every query the modelled classifier labels casual, the
pipeline invokes neither the vector-search stub nor the generation stub
(both call counts are 0), and the returned answer is the classifier's
response, one of the matched category's canned responses. -/
theorem c2_casual_short_circuit (st : PipelineStubs) (q : String)
    (cat : CasualCategory) (resp : String)
    (h : classify q = .casual cat resp) :
    (process_query st q).searchCalls = 0 ∧ (process_query st q).genCalls = 0 ∧
      (process_query st q).answer = resp ∧ resp ∈ cat.responses := by
  refine ⟨by simp [process_query, h], by simp [process_query, h],
    by simp [process_query, h], ?_⟩
  unfold classify at h
  cases hm : matchCasual (normalizeQuery q) with
  | none => simp [hm] at h
  | some c =>
      by_cases hind : isIndependentQuestion (normalizeQuery q)
      · simp [hm, hind] at h
      · simp [hm, hind] at h
        have hmem : c ∈ casualCategories := List.mem_of_find?_eq_some hm
        have hlen : ∀ x ∈ casualCategories, x.responses.length ≠ 0 := by decide
        have hpos : 0 < c.responses.length := Nat.pos_of_ne_zero (hlen c hmem)
        have hlt : (normalizeQuery q).length % c.responses.length <
            c.responses.length := Nat.mod_lt _ hpos
        have hpick : pickResponse c (normalizeQuery q) ∈ c.responses := by
          unfold pickResponse
          rw [List.getD_eq_getElem?_getD, List.getElem?_eq_getElem hlt]
          exact List.getElem_mem hlt
        obtain ⟨hcat, hresp⟩ := h
        subst hcat
        subst hresp
        exact hpick

/-- Witness for C2 at the query `hi`. -/
theorem c2_casual_short_circuit_witness :
    (process_query {} "hi").searchCalls = 0 ∧ (process_query {} "hi").genCalls = 0 ∧
      (process_query {} "hi").answer = "Hello! How can I help you today?" ∧
      "Hello! How can I help you today?" ∈
        (CasualCategory.mk "greeting"
          ["hi", "hello", "hey", "good morning", "good afternoon", "good evening"]
          ["Hello! How can I help you today?", "Hi there! What would you like to know?"]).responses :=
  c2_casual_short_circuit {} "hi"
    (CasualCategory.mk "greeting"
      ["hi", "hello", "hey", "good morning", "good afternoon", "good evening"]
      ["Hello! How can I help you today?", "Hi there! What would you like to know?"])
    "Hello! How can I help you today?" (by decide)

end CoreModel
